import Mathlib

/-!
Shallow embedding of the connection-guardian driver wrapper
(`pkg/driver.go` of fbiville/neo4j-go-driver-issue-451).

The external neo4j client library (session `Run`, driver construction,
`VerifyConnectivity`, the caller-supplied result hook) is modelled as an
environment of oracles indexed by call counts; the guardian's own logic
(`nonblockExecuteQuery`, `reconnect`, `nonblockClose`, `Close`,
`executeHook`, `NewDriver`, `NewSession`, `CloseSession`, `ExecuteQuery`)
is translated function by function from the Go source.  Side effects that
the specification talks about (sessions opened and closed, handles built
and closed, hook invocations, connectivity probes) are recorded in an
event trace.  The unbounded retry recursion of the Go code is made total
with a fuel parameter; running out of fuel is reported as a distinguished
outcome `ExecOut.fuelOut` that corresponds to the (specified, uncapped)
divergence under persistent connectivity failure.
-/

namespace Issue451

/-- Outcome of one `session.Run` call, supplied by the environment:
either a result cursor (identified by a number) or an error message. -/
inductive RunOutcome where
  | ok (resultId : Nat)
  | error (msg : String)
deriving DecidableEq

/-- Behaviour of the caller-supplied results hook on one invocation:
normal return, returned error, or panic (with the panic value rendered
as a string, as `fmt.Errorf("%v", r)` would). -/
inductive HookOutcome where
  | ok
  | fail (msg : String)
  | panicked (val : String)
deriving DecidableEq

/-- Observable events of one guardian, in chronological order. -/
inductive Event where
  | newSession (sid : Nat)
  | runCall (sid : Nat)
  | closeSession (sid : Nat)
  | hookCall (resultId : Nat)
  | verifyCall
  | newHandle (hid : Nat)
  | closeHandle (hid : Nat)
deriving DecidableEq

/-- Settings holds the driver settings (Go struct `Settings`). -/
structure Settings where
  ConnectionString : String
  User : String
  Password : String
deriving DecidableEq

/-- The guardian's own fields (Go struct `Driver`): the underlying handle
(identified by a number, `none` for a nil interface value) and the stored
connection parameters. -/
structure Guardian where
  driver : Option Nat
  dbURI : String
  user : String
  password : String
deriving DecidableEq

/-- Environment of oracles standing for the external neo4j client library
and the caller's hook.  Each oracle is indexed by how many calls of that
kind happened before. -/
structure Env where
  runOutcome : Nat → RunOutcome
  verifyOk : Nat → Bool
  ctorOutcome : Nat → Except String Nat
  hookOutcome : Nat → HookOutcome
  stack : String

/-- Whole-world state threaded through the embedded functions: the
guardian's fields, fresh-session counter, per-oracle call counters and
the event trace. -/
structure World where
  g : Guardian
  nextSid : Nat
  runCount : Nat
  verifyCount : Nat
  ctorCount : Nat
  hookCount : Nat
  events : List Event
deriving DecidableEq

/-- The error message produced by `executeHook`'s recover branch:
`fmt.Errorf("[neo4j onResults] recovered from panic: %v\n\n%s", r, string(debug.Stack()))`. -/
def panicMessage (v stack : String) : String :=
  "[neo4j onResults] recovered from panic: " ++ v ++ "\n\n" ++ stack

/-- Go `executeHook(onResults, result)`: runs the hook on the result
cursor; a returned error is passed through, a panic is recovered and
converted into an error carrying the panic value and the stack trace. -/
def executeHook (env : Env) (w : World) (resultId : Nat) : Option String × World :=
  let w1 : World :=
    { w with hookCount := w.hookCount + 1, events := w.events ++ [Event.hookCall resultId] }
  match env.hookOutcome w.hookCount with
  | HookOutcome.ok => (none, w1)
  | HookOutcome.fail e => (some e, w1)
  | HookOutcome.panicked v => (some (panicMessage v env.stack), w1)

/-- Go `NewDriver(settings)`: asks the client library for a new handle;
on success returns a `Driver` value holding the new handle and the given
settings, on failure returns the construction error. -/
def NewDriver (env : Env) (w : World) (settings : Settings) : Except String Guardian × World :=
  match env.ctorOutcome w.ctorCount with
  | Except.error e => (Except.error e, { w with ctorCount := w.ctorCount + 1 })
  | Except.ok hid =>
      (Except.ok
        { driver := some hid, dbURI := settings.ConnectionString,
          user := settings.User, password := settings.Password },
       { w with ctorCount := w.ctorCount + 1,
                events := w.events ++ [Event.newHandle hid] })

/-- Go `(d *Driver) NewSession(ctx)`: obtains a fresh session from the
current handle.  The Go function always returns a nil error (session
creation does not validate connectivity), so the embedding returns just
the session id. -/
def NewSession (w : World) : Nat × World :=
  (w.nextSid,
   { w with nextSid := w.nextSid + 1,
            events := w.events ++ [Event.newSession w.nextSid] })

/-- Go `(d *Driver) CloseSession(ctx, session)`: closes the session. -/
def CloseSession (w : World) (sid : Nat) : World :=
  { w with events := w.events ++ [Event.closeSession sid] }

/-- Go `(d *Driver) nonblockClose(ctx)`: closes the current handle if
there is one; the handle field itself is not modified. -/
def nonblockClose (w : World) : World :=
  match w.g.driver with
  | none => w
  | some hid => { w with events := w.events ++ [Event.closeHandle hid] }

/-- Go `(d *Driver) reconnect(ctx)` (the recovery lock is a no-op in this
sequential model): re-verify connectivity of the current handle and
return immediately if it is fine; otherwise build a replacement handle
from the stored parameters, and on success close the old handle and swap
in the new one. -/
def reconnect (env : Env) (w : World) : Option String × World :=
  let w1 : World :=
    { w with verifyCount := w.verifyCount + 1, events := w.events ++ [Event.verifyCall] }
  if env.verifyOk w.verifyCount then (none, w1)
  else
    match NewDriver env w1
        { ConnectionString := w.g.dbURI, User := w.g.user, Password := w.g.password } with
    | (Except.error e, w2) => (some e, w2)
    | (Except.ok g2, w2) =>
        let w3 := nonblockClose w2
        (none, { w3 with g := { w3.g with driver := g2.driver } })

/-- The error classification of `nonblockExecuteQuery`:
`err.Error() == "Trying to create session on closed driver" ||
strings.HasPrefix(err.Error(), "ConnectivityError")`. -/
def isRecoverable (e : String) : Bool :=
  e == "Trying to create session on closed driver" ||
  "ConnectivityError".data.isPrefixOf e.data

/-- Outcome of the internal execute path: success, an error returned to
the caller, or fuel exhaustion (standing for the uncapped retry
recursion not terminating within the given fuel). -/
inductive ExecOut where
  | ok
  | err (msg : String)
  | fuelOut
deriving DecidableEq

/-- Go `(d *Driver) nonblockExecuteQuery(ctx, query, params, onResults)`:
open a session (its deferred close runs at every return point), run the
query, on a recoverable error reconnect and retry recursively, on any
other error return it unchanged, on success run the hook. -/
def nonblockExecuteQuery (env : Env) : Nat → World → ExecOut × World
  | 0, w => (ExecOut.fuelOut, w)
  | fuel + 1, w =>
    match NewSession w with
    | (sid, w1) =>
      let w2 : World :=
        { w1 with runCount := w1.runCount + 1, events := w1.events ++ [Event.runCall sid] }
      match env.runOutcome w1.runCount with
      | RunOutcome.error e =>
          if isRecoverable e then
            match reconnect env w2 with
            | (some re, w3) => (ExecOut.err re, CloseSession w3 sid)
            | (none, w3) =>
                match nonblockExecuteQuery env fuel w3 with
                | (out, w4) => (out, CloseSession w4 sid)
          else (ExecOut.err e, CloseSession w2 sid)
      | RunOutcome.ok rid =>
          match executeHook env w2 rid with
          | (some he, w3) => (ExecOut.err he, CloseSession w3 sid)
          | (none, w3) => (ExecOut.ok, CloseSession w3 sid)

/-- Go `(d *Driver) ExecuteQuery(...)`: takes the access lock in shared
mode (a no-op in this sequential model) and delegates to the internal
execute path. -/
def ExecuteQuery (env : Env) (fuel : Nat) (w : World) : ExecOut × World :=
  nonblockExecuteQuery env fuel w

/-- Go `(d *Driver) Close(ctx)`: takes the access lock exclusively (a
no-op in this sequential model) and closes the current handle. -/
def Close (w : World) : World :=
  nonblockClose w

/-- Number of handle constructions recorded in a trace. -/
def countNewHandles : List Event → Nat
  | [] => 0
  | Event.newHandle _ :: rest => countNewHandles rest + 1
  | _ :: rest => countNewHandles rest

/-- Number of handle closes recorded in a trace. -/
def countCloseHandles : List Event → Nat
  | [] => 0
  | Event.closeHandle _ :: rest => countCloseHandles rest + 1
  | _ :: rest => countCloseHandles rest

/-- How many times session `s` was opened in a trace. -/
def countOpen (s : Nat) : List Event → Nat
  | [] => 0
  | Event.newSession t :: rest => (if t = s then 1 else 0) + countOpen s rest
  | _ :: rest => countOpen s rest

/-- How many times session `s` was closed in a trace. -/
def countClosed (s : Nat) : List Event → Nat
  | [] => 0
  | Event.closeSession t :: rest => (if t = s then 1 else 0) + countClosed s rest
  | _ :: rest => countClosed s rest

/-- A trace chunk that mentions no session events at all. -/
def sessionFree : List Event → Bool
  | [] => true
  | Event.newSession _ :: _ => false
  | Event.closeSession _ :: _ => false
  | _ :: rest => sessionFree rest

/-- True iff some session close precedes some later hook invocation in
the trace. -/
def closedBeforeHook : List Event → Bool
  | [] => false
  | Event.closeSession _ :: rest =>
      rest.any (fun e => match e with | Event.hookCall _ => true | _ => false)
      || closedBeforeHook rest
  | _ :: rest => closedBeforeHook rest

/-! Concrete instances used to exercise the model -/

/-- A fresh guardian world, as `NewDriver` would produce it at startup. -/
def w0 : World :=
  { g := { driver := some 0, dbURI := "neo4j://localhost", user := "neo4j", password := "pw" },
    nextSid := 0, runCount := 0, verifyCount := 0, ctorCount := 0, hookCount := 0, events := [] }

/-- Environment in which everything succeeds on the first try. -/
def envSuccess : Env :=
  { runOutcome := fun _ => RunOutcome.ok 7, verifyOk := fun _ => true,
    ctorOutcome := fun _ => Except.ok 1, hookOutcome := fun _ => HookOutcome.ok, stack := "st" }

/-- Environment in which the first run hits a connectivity error, the
connectivity re-check fails, handle reconstruction succeeds, and the
second run and the hook succeed. -/
def envRetry : Env :=
  { runOutcome := fun n =>
      if n == 0 then RunOutcome.error "ConnectivityError: connection lost" else RunOutcome.ok 7,
    verifyOk := fun _ => false,
    ctorOutcome := fun _ => Except.ok 5, hookOutcome := fun _ => HookOutcome.ok, stack := "st" }

/-- Environment in which the first run fails with the closed-driver
message, the re-check fails, reconstruction succeeds, and the second run
and the hook succeed. -/
def envClosed : Env :=
  { runOutcome := fun n =>
      if n == 0 then RunOutcome.error "Trying to create session on closed driver"
      else RunOutcome.ok 7,
    verifyOk := fun _ => false,
    ctorOutcome := fun _ => Except.ok 5, hookOutcome := fun _ => HookOutcome.ok, stack := "st" }

/-- Environment in which every run fails with a non-connectivity error. -/
def envQueryErr : Env :=
  { runOutcome := fun _ => RunOutcome.error "SyntaxError: bad query", verifyOk := fun _ => true,
    ctorOutcome := fun _ => Except.ok 5, hookOutcome := fun _ => HookOutcome.ok, stack := "st" }

/-- Environment in which the run succeeds but the hook panics. -/
def envPanicky : Env :=
  { runOutcome := fun _ => RunOutcome.ok 7, verifyOk := fun _ => true,
    ctorOutcome := fun _ => Except.ok 5,
    hookOutcome := fun _ => HookOutcome.panicked "boom", stack := "st" }

/-- Environment in which the connectivity re-check fails and handle
reconstruction fails as well. -/
def envCtorFail : Env :=
  { runOutcome := fun _ => RunOutcome.ok 7, verifyOk := fun _ => false,
    ctorOutcome := fun _ => Except.error "ConnectionError: refused",
    hookOutcome := fun _ => HookOutcome.ok, stack := "st" }

/-! Trace-counting helper lemmas -/

theorem countNewHandles_append (a b : List Event) :
    countNewHandles (a ++ b) = countNewHandles a + countNewHandles b := by
  induction a with
  | nil => simp [countNewHandles]
  | cons e rest ih => cases e <;> simp [countNewHandles, ih] <;> omega

theorem countCloseHandles_append (a b : List Event) :
    countCloseHandles (a ++ b) = countCloseHandles a + countCloseHandles b := by
  induction a with
  | nil => simp [countCloseHandles]
  | cons e rest ih => cases e <;> simp [countCloseHandles, ih] <;> omega

theorem countOpen_append (s : Nat) (a b : List Event) :
    countOpen s (a ++ b) = countOpen s a + countOpen s b := by
  induction a with
  | nil => simp [countOpen]
  | cons e rest ih => cases e <;> simp [countOpen, ih] <;> omega

theorem countClosed_append (s : Nat) (a b : List Event) :
    countClosed s (a ++ b) = countClosed s a + countClosed s b := by
  induction a with
  | nil => simp [countClosed]
  | cons e rest ih => cases e <;> simp [countClosed, ih] <;> omega

theorem sessionFree_counts {t : List Event} (h : sessionFree t = true) (s : Nat) :
    countOpen s t = 0 ∧ countClosed s t = 0 := by
  induction t with
  | nil => simp [countOpen, countClosed]
  | cons e rest ih =>
    cases e <;> simp [sessionFree, countOpen, countClosed] at h ⊢ <;> exact ih h

/-! Frame lemmas about reconnect -/

theorem reconnect_frame {env : Env} {w : World} {o : Option String} {w' : World}
    (h : reconnect env w = (o, w')) :
    w'.runCount = w.runCount ∧ w'.hookCount = w.hookCount ∧
    w'.nextSid = w.nextSid ∧ w'.verifyCount = w.verifyCount + 1 := by
  unfold reconnect NewDriver nonblockClose at h
  cases hv : env.verifyOk w.verifyCount
  · cases hc : env.ctorOutcome w.ctorCount with
    | error e =>
      simp only [hv, hc, Bool.false_eq_true, if_false, Prod.mk.injEq] at h
      obtain ⟨-, hw⟩ := h
      subst hw; simp
    | ok hid =>
      cases hd : w.g.driver <;>
        · simp only [hv, hc, hd, Bool.false_eq_true, if_false, Prod.mk.injEq] at h
          obtain ⟨-, hw⟩ := h
          subst hw; simp
  · simp only [hv, if_true, Prod.mk.injEq] at h
    obtain ⟨-, hw⟩ := h
    subst hw; simp

theorem reconnect_session_events {env : Env} {w : World} {o : Option String} {w' : World}
    (h : reconnect env w = (o, w')) :
    ∃ t, w'.events = w.events ++ t ∧ sessionFree t = true := by
  unfold reconnect NewDriver nonblockClose at h
  cases hv : env.verifyOk w.verifyCount
  · cases hc : env.ctorOutcome w.ctorCount with
    | error e =>
      simp only [hv, hc, Bool.false_eq_true, if_false, Prod.mk.injEq] at h
      obtain ⟨-, hw⟩ := h
      subst hw
      exact ⟨[Event.verifyCall], by simp, by simp [sessionFree]⟩
    | ok hid =>
      cases hd : w.g.driver with
      | none =>
        simp only [hv, hc, hd, Bool.false_eq_true, if_false, Prod.mk.injEq] at h
        obtain ⟨-, hw⟩ := h
        subst hw
        exact ⟨[Event.verifyCall, Event.newHandle hid], by simp, by simp [sessionFree]⟩
      | some hold =>
        simp only [hv, hc, hd, Bool.false_eq_true, if_false, Prod.mk.injEq] at h
        obtain ⟨-, hw⟩ := h
        subst hw
        exact ⟨[Event.verifyCall, Event.newHandle hid, Event.closeHandle hold],
               by simp, by simp [sessionFree]⟩
  · simp only [hv, if_true, Prod.mk.injEq] at h
    obtain ⟨-, hw⟩ := h
    subst hw
    exact ⟨[Event.verifyCall], by simp, by simp [sessionFree]⟩

theorem reconnect_succeeds {env : Env} {w : World} {o : Option String} {w' : World}
    (h : reconnect env w = (o, w'))
    (hok : env.verifyOk w.verifyCount = true ∨
           ∃ hid, env.ctorOutcome w.ctorCount = Except.ok hid) :
    o = none := by
  unfold reconnect NewDriver nonblockClose at h
  cases hv : env.verifyOk w.verifyCount
  · cases hc : env.ctorOutcome w.ctorCount with
    | error e =>
      rcases hok with hok | ⟨hid, hok⟩
      · rw [hv] at hok; cases hok
      · rw [hc] at hok; cases hok
    | ok hid =>
      cases hd : w.g.driver <;>
        · simp only [hv, hc, hd, Bool.false_eq_true, if_false, Prod.mk.injEq] at h
          exact h.1.symm
  · simp only [hv, if_true, Prod.mk.injEq] at h
    exact h.1.symm

/-! Counter lemmas about the internal execute path -/

theorem exec_counters_le (env : Env) :
    ∀ fuel w, w.runCount ≤ (nonblockExecuteQuery env fuel w).2.runCount ∧
              w.verifyCount ≤ (nonblockExecuteQuery env fuel w).2.verifyCount := by
  intro fuel
  induction fuel with
  | zero =>
    intro w
    exact ⟨Nat.le_refl _, Nat.le_refl _⟩
  | succ f ih =>
    intro w
    simp only [nonblockExecuteQuery, NewSession]
    split
    next e heq =>
      split
      next hrec =>
        split
        next re w3 hre =>
          obtain ⟨h1, -, -, h4⟩ := reconnect_frame hre
          simp at h1 h4
          simp [CloseSession]
          omega
        next w3 hre =>
          obtain ⟨h1, -, -, h4⟩ := reconnect_frame hre
          obtain ⟨hih1, hih2⟩ := ih w3
          simp at h1 h4
          simp [CloseSession]
          omega
      next hrec =>
        simp [CloseSession]
    next rid heq =>
      cases hh : env.hookOutcome w.hookCount <;>
        simp [executeHook, hh, CloseSession]

theorem exec_run_succ (env : Env) (f : Nat) (w : World) :
    w.runCount + 1 ≤ (nonblockExecuteQuery env (f + 1) w).2.runCount := by
  simp only [nonblockExecuteQuery, NewSession]
  split
  next e heq =>
    split
    next hrec =>
      split
      next re w3 hre =>
        obtain ⟨h1, -, -, -⟩ := reconnect_frame hre
        simp at h1
        simp [CloseSession]
        omega
      next w3 hre =>
        obtain ⟨h1, -, -, -⟩ := reconnect_frame hre
        obtain ⟨hih1, -⟩ := exec_counters_le env f w3
        simp at h1
        simp [CloseSession]
        omega
    next hrec =>
      simp [CloseSession]
  next rid heq =>
    cases hh : env.hookOutcome w.hookCount <;>
      simp [executeHook, hh, CloseSession]

/-! Claim theorems -/

/-- C1: inside the internal execute path, a `Run` error triggers
reconnection (and, when the reconnection succeeds, a retry) if and only
if its message is exactly `"Trying to create session on closed driver"`
or begins with `"ConnectivityError"`; every other `Run` error is
returned to the caller unchanged, with no connectivity probe, no handle
construction, and no second `Run`. -/
theorem C1_run_error_classification (env : Env) (w : World) (e : String) (fuel : Nat)
    (hrun : env.runOutcome w.runCount = RunOutcome.error e) :
    (isRecoverable e = false →
       (nonblockExecuteQuery env (fuel + 1 + 1) w).1 = ExecOut.err e ∧
       (nonblockExecuteQuery env (fuel + 1 + 1) w).2.verifyCount = w.verifyCount ∧
       (nonblockExecuteQuery env (fuel + 1 + 1) w).2.ctorCount = w.ctorCount ∧
       (nonblockExecuteQuery env (fuel + 1 + 1) w).2.runCount = w.runCount + 1) ∧
    (isRecoverable e = true →
       w.verifyCount < (nonblockExecuteQuery env (fuel + 1 + 1) w).2.verifyCount) ∧
    (isRecoverable e = true →
       (env.verifyOk w.verifyCount = true ∨
        ∃ hid, env.ctorOutcome w.ctorCount = Except.ok hid) →
       w.runCount + 2 ≤ (nonblockExecuteQuery env (fuel + 1 + 1) w).2.runCount) := by
  refine ⟨?_, ?_, ?_⟩
  · intro hrec
    simp only [nonblockExecuteQuery, NewSession]
    simp [hrun, hrec, CloseSession]
  · intro hrec
    have hstep := exec_run_succ env fuel
    generalize hf1 : fuel + 1 = f1 at hstep ⊢
    simp only [nonblockExecuteQuery, NewSession]
    simp only [hrun, hrec, if_true]
    split
    next re w3 hre =>
      obtain ⟨-, -, -, h4⟩ := reconnect_frame hre
      simp at h4
      simp [CloseSession]
      omega
    next w3 hre =>
      obtain ⟨-, -, -, h4⟩ := reconnect_frame hre
      obtain ⟨-, hv⟩ := exec_counters_le env f1 w3
      simp at h4
      simp [CloseSession]
      omega
  · intro hrec hok
    have hstep := exec_run_succ env fuel
    generalize hf1 : fuel + 1 = f1 at hstep ⊢
    simp only [nonblockExecuteQuery, NewSession]
    simp only [hrun, hrec, if_true]
    split
    next re w3 hre =>
      have hnone := reconnect_succeeds hre hok
      cases hnone
    next w3 hre =>
      obtain ⟨h1, -, -, -⟩ := reconnect_frame hre
      have hs3 := hstep w3
      simp at h1
      simp [CloseSession]
      omega

/-- Witness for C1 at a concrete non-connectivity error. -/
theorem C1_run_error_classification_witness :
    (isRecoverable "SyntaxError: bad query" = false →
       (nonblockExecuteQuery envQueryErr (0 + 1 + 1) w0).1 = ExecOut.err "SyntaxError: bad query" ∧
       (nonblockExecuteQuery envQueryErr (0 + 1 + 1) w0).2.verifyCount = w0.verifyCount ∧
       (nonblockExecuteQuery envQueryErr (0 + 1 + 1) w0).2.ctorCount = w0.ctorCount ∧
       (nonblockExecuteQuery envQueryErr (0 + 1 + 1) w0).2.runCount = w0.runCount + 1) ∧
    (isRecoverable "SyntaxError: bad query" = true →
       w0.verifyCount < (nonblockExecuteQuery envQueryErr (0 + 1 + 1) w0).2.verifyCount) ∧
    (isRecoverable "SyntaxError: bad query" = true →
       (envQueryErr.verifyOk w0.verifyCount = true ∨
        ∃ hid, envQueryErr.ctorOutcome w0.ctorCount = Except.ok hid) →
       w0.runCount + 2 ≤ (nonblockExecuteQuery envQueryErr (0 + 1 + 1) w0).2.runCount) :=
  C1_run_error_classification envQueryErr w0 "SyntaxError: bad query" 0 rfl

/-- C6: every session opened during the internal execute path
(including the session of each retry round) is also closed by the time
the call returns, on every exit path: for every session id, the number
of opens and the number of closes recorded during the call are equal. -/
theorem C6_sessions_balanced (env : Env) :
    ∀ fuel w s,
      countOpen s (nonblockExecuteQuery env fuel w).2.events + countClosed s w.events =
      countClosed s (nonblockExecuteQuery env fuel w).2.events + countOpen s w.events := by
  intro fuel
  induction fuel with
  | zero => intro w s; simp [nonblockExecuteQuery]; omega
  | succ f ih =>
    intro w s
    simp only [nonblockExecuteQuery, NewSession]
    split
    next e heq =>
      split
      next hrec =>
        split
        next re w3 hre =>
          obtain ⟨t, ht, hfree⟩ := reconnect_session_events hre
          obtain ⟨ho, hc⟩ := sessionFree_counts hfree s
          simp at ht
          simp [CloseSession, ht, countOpen_append, countClosed_append, countOpen, countClosed,
                ho, hc]
          by_cases hs : w.nextSid = s <;> simp [hs] <;> omega
        next w3 hre =>
          obtain ⟨t, ht, hfree⟩ := reconnect_session_events hre
          obtain ⟨ho, hc⟩ := sessionFree_counts hfree s
          have hih := ih w3 s
          simp at ht
          rw [ht] at hih
          simp [countOpen_append, countClosed_append, countOpen, countClosed, ho, hc] at hih
          simp [CloseSession, countOpen_append, countClosed_append, countOpen, countClosed]
          by_cases hs : w.nextSid = s <;> simp [hs] at hih ⊢ <;> omega
      next hrec =>
        simp [CloseSession, countOpen_append, countClosed_append, countOpen, countClosed]
        by_cases hs : w.nextSid = s <;> simp [hs] <;> omega
    next rid heq =>
      cases hh : env.hookOutcome w.hookCount <;>
        · simp [executeHook, hh, CloseSession, countOpen_append, countClosed_append,
                countOpen, countClosed]
          by_cases hs : w.nextSid = s <;> simp [hs] <;> omega

/-- C2: if the first `Run` returns a connectivity-class error, the
reconnection succeeds (connectivity re-check fails, fresh handle is
built), and the second `Run` and the hook succeed, then `ExecuteQuery`
returns no error and exactly one new handle construction happened. -/
theorem C2_transparent_retry (env : Env) (w : World) (e : String) (hid rid fuel : Nat)
    (he : isRecoverable e = true)
    (h0 : env.runOutcome w.runCount = RunOutcome.error e)
    (hv : env.verifyOk w.verifyCount = false)
    (hc : env.ctorOutcome w.ctorCount = Except.ok hid)
    (h1 : env.runOutcome (w.runCount + 1) = RunOutcome.ok rid)
    (hh : env.hookOutcome w.hookCount = HookOutcome.ok) :
    (ExecuteQuery env (fuel + 1 + 1) w).1 = ExecOut.ok ∧
    countNewHandles (ExecuteQuery env (fuel + 1 + 1) w).2.events =
      countNewHandles w.events + 1 := by
  cases hd : w.g.driver <;>
    · unfold ExecuteQuery
      simp only [nonblockExecuteQuery, NewSession]
      simp [h0, he, reconnect, NewDriver, nonblockClose, hv, hc, hd, executeHook, h1, hh,
            CloseSession, countNewHandles_append, countNewHandles]

/-- Witness for C2 at a concrete connectivity error. -/
theorem C2_transparent_retry_witness :
    (ExecuteQuery envRetry (0 + 1 + 1) w0).1 = ExecOut.ok ∧
    countNewHandles (ExecuteQuery envRetry (0 + 1 + 1) w0).2.events =
      countNewHandles w0.events + 1 :=
  C2_transparent_retry envRetry w0 "ConnectivityError: connection lost" 5 7 0
    (by decide) rfl rfl rfl rfl rfl

/-- C3: on the success path, a hook that panics is recovered and
converted into the error carrying the panic value and the stack trace,
and a hook failure (returned error or recovered panic) is surfaced to
the caller without any connectivity probe, handle construction, or
retry. -/
theorem C3_hook_isolation (env : Env) (w : World) (rid fuel : Nat)
    (hr : env.runOutcome w.runCount = RunOutcome.ok rid) :
    (∀ v, env.hookOutcome w.hookCount = HookOutcome.panicked v →
       (nonblockExecuteQuery env (fuel + 1) w).1 = ExecOut.err (panicMessage v env.stack)) ∧
    (∀ m, env.hookOutcome w.hookCount = HookOutcome.fail m →
       (nonblockExecuteQuery env (fuel + 1) w).1 = ExecOut.err m) ∧
    (nonblockExecuteQuery env (fuel + 1) w).2.verifyCount = w.verifyCount ∧
    (nonblockExecuteQuery env (fuel + 1) w).2.ctorCount = w.ctorCount ∧
    (nonblockExecuteQuery env (fuel + 1) w).2.runCount = w.runCount + 1 := by
  refine ⟨?_, ?_, ?_⟩
  · intro v hv
    simp only [nonblockExecuteQuery, NewSession]
    simp [hr, executeHook, hv, CloseSession]
  · intro m hm
    simp only [nonblockExecuteQuery, NewSession]
    simp [hr, executeHook, hm, CloseSession]
  · simp only [nonblockExecuteQuery, NewSession]
    cases hh : env.hookOutcome w.hookCount <;>
      simp [hr, executeHook, hh, CloseSession]

/-- Witness for C3 at a concrete panicking hook. -/
theorem C3_hook_isolation_witness :
    (∀ v, envPanicky.hookOutcome w0.hookCount = HookOutcome.panicked v →
       (nonblockExecuteQuery envPanicky (0 + 1) w0).1 =
         ExecOut.err (panicMessage v envPanicky.stack)) ∧
    (∀ m, envPanicky.hookOutcome w0.hookCount = HookOutcome.fail m →
       (nonblockExecuteQuery envPanicky (0 + 1) w0).1 = ExecOut.err m) ∧
    (nonblockExecuteQuery envPanicky (0 + 1) w0).2.verifyCount = w0.verifyCount ∧
    (nonblockExecuteQuery envPanicky (0 + 1) w0).2.ctorCount = w0.ctorCount ∧
    (nonblockExecuteQuery envPanicky (0 + 1) w0).2.runCount = w0.runCount + 1 :=
  C3_hook_isolation envPanicky w0 7 0 rfl

/-- C4: if the connectivity re-check of the current handle succeeds
when `reconnect` is entered, `reconnect` returns no error immediately:
no new handle is constructed and the guardian's handle reference (and
all its fields) are unchanged. -/
theorem C4_double_checked_recovery (env : Env) (w : World)
    (hv : env.verifyOk w.verifyCount = true) :
    (reconnect env w).1 = none ∧
    (reconnect env w).2.g = w.g ∧
    (reconnect env w).2.ctorCount = w.ctorCount ∧
    countNewHandles (reconnect env w).2.events = countNewHandles w.events := by
  unfold reconnect
  simp [hv, countNewHandles_append, countNewHandles]

/-- Witness for C4. -/
theorem C4_double_checked_recovery_witness :
    (reconnect envSuccess w0).1 = none ∧
    (reconnect envSuccess w0).2.g = w0.g ∧
    (reconnect envSuccess w0).2.ctorCount = w0.ctorCount ∧
    countNewHandles (reconnect envSuccess w0).2.events = countNewHandles w0.events :=
  C4_double_checked_recovery envSuccess w0 rfl

/-- C5: if building the replacement handle fails during `reconnect`,
that construction error is returned, the guardian still references the
old handle (all fields unchanged), and the old handle is not closed. -/
theorem C5_ctor_failure_keeps_old_handle (env : Env) (w : World) (e : String)
    (hv : env.verifyOk w.verifyCount = false)
    (hc : env.ctorOutcome w.ctorCount = Except.error e) :
    (reconnect env w).1 = some e ∧
    (reconnect env w).2.g = w.g ∧
    countCloseHandles (reconnect env w).2.events = countCloseHandles w.events := by
  unfold reconnect NewDriver
  simp [hv, hc, countCloseHandles_append, countCloseHandles]

/-- Witness for C5. -/
theorem C5_ctor_failure_keeps_old_handle_witness :
    (reconnect envCtorFail w0).1 = some "ConnectionError: refused" ∧
    (reconnect envCtorFail w0).2.g = w0.g ∧
    countCloseHandles (reconnect envCtorFail w0).2.events = countCloseHandles w0.events :=
  C5_ctor_failure_keeps_old_handle envCtorFail w0 "ConnectionError: refused" rfl rfl

/-- C7 (counterexample): in a concrete success-path run the recorded
trace is new-session, run, hook, close-session — no session close
precedes the hook invocation, refuting the claim that the session is
released before the result hook is invoked. -/
theorem C7_counterexample :
    (nonblockExecuteQuery envSuccess 1 w0).2.events =
      [Event.newSession 0, Event.runCall 0, Event.hookCall 7, Event.closeSession 0] ∧
    closedBeforeHook (nonblockExecuteQuery envSuccess 1 w0).2.events = false := by
  constructor <;> rfl

/-- C7 (amended): on the success path of the internal execute, the
result hook is invoked first and the session is released immediately
after it (the deferred close runs when the call returns), still before
the internal execute call returns. -/
theorem C7_amended_hook_then_close (env : Env) (w : World) (rid fuel : Nat)
    (hr : env.runOutcome w.runCount = RunOutcome.ok rid) :
    (nonblockExecuteQuery env (fuel + 1) w).2.events =
      w.events ++ [Event.newSession w.nextSid, Event.runCall w.nextSid,
                   Event.hookCall rid, Event.closeSession w.nextSid] := by
  simp only [nonblockExecuteQuery, NewSession]
  cases hh : env.hookOutcome w.hookCount <;>
    simp [hr, executeHook, hh, CloseSession]

/-- Witness for the amended C7. -/
theorem C7_amended_hook_then_close_witness :
    (nonblockExecuteQuery envSuccess (0 + 1) w0).2.events =
      w0.events ++ [Event.newSession w0.nextSid, Event.runCall w0.nextSid,
                    Event.hookCall 7, Event.closeSession w0.nextSid] :=
  C7_amended_hook_then_close envSuccess w0 7 0 rfl

/-- C8: after `Close`, an `ExecuteQuery` whose first `Run` reports the
closed-driver error succeeds (no error returned), performing exactly one
reconnect (one new handle construction) and exactly one retry `Run`,
provided the rebuilt handle works (second `Run` and hook succeed). -/
theorem C8_execute_after_close (env : Env) (w : World) (hid rid fuel : Nat)
    (h0 : env.runOutcome w.runCount =
            RunOutcome.error "Trying to create session on closed driver")
    (hv : env.verifyOk w.verifyCount = false)
    (hc : env.ctorOutcome w.ctorCount = Except.ok hid)
    (h1 : env.runOutcome (w.runCount + 1) = RunOutcome.ok rid)
    (hh : env.hookOutcome w.hookCount = HookOutcome.ok) :
    (ExecuteQuery env (fuel + 1 + 1) (Close w)).1 = ExecOut.ok ∧
    (ExecuteQuery env (fuel + 1 + 1) (Close w)).2.runCount = w.runCount + 2 ∧
    countNewHandles (ExecuteQuery env (fuel + 1 + 1) (Close w)).2.events =
      countNewHandles w.events + 1 := by
  have he : isRecoverable "Trying to create session on closed driver" = true := by decide
  cases hd : w.g.driver <;>
    · unfold ExecuteQuery Close nonblockClose
      simp only [nonblockExecuteQuery, NewSession]
      simp [hd, h0, he, reconnect, NewDriver, nonblockClose, hv, hc, executeHook, h1, hh,
            CloseSession, countNewHandles_append, countNewHandles]

/-- Witness for C8. -/
theorem C8_execute_after_close_witness :
    (ExecuteQuery envClosed (0 + 1 + 1) (Close w0)).1 = ExecOut.ok ∧
    (ExecuteQuery envClosed (0 + 1 + 1) (Close w0)).2.runCount = w0.runCount + 2 ∧
    countNewHandles (ExecuteQuery envClosed (0 + 1 + 1) (Close w0)).2.events =
      countNewHandles w0.events + 1 :=
  C8_execute_after_close envClosed w0 5 7 0 rfl rfl rfl rfl rfl

/-- C10: `Close` closes the underlying handle (a no-op when the
handle reference is nil) but never changes the guardian's fields: the
handle reference and the stored connection parameters are exactly as
before, so a later `ExecuteQuery` still reaches the now-closed handle. -/
theorem C10_close_frame (w : World) :
    (Close w).g = w.g ∧
    (w.g.driver = none → (Close w).events = w.events) ∧
    (∀ hid, w.g.driver = some hid →
      (Close w).events = w.events ++ [Event.closeHandle hid]) := by
  unfold Close nonblockClose
  cases hd : w.g.driver <;> simp [hd]

/-- Witness for C10. -/
theorem C10_close_frame_witness :
    (Close w0).g = w0.g ∧
    (w0.g.driver = none → (Close w0).events = w0.events) ∧
    (∀ hid, w0.g.driver = some hid →
      (Close w0).events = w0.events ++ [Event.closeHandle hid]) :=
  C10_close_frame w0

end Issue451
